import Mathlib

/-!
Verification of the cloudwatch_log_exporter core (`exporter.py`, `types.py`)
against its natural-language specification.

The embedding is shallow: the service boundary is parameterised.
* Environment variables (`os.environ`) are modelled as `Env := String → Option String`.
* `describe_export_tasks` responses are modelled structurally for
  `get_export_status_code`; inside the polling loop of
  `maybe_export_log_group` the sequence of status codes returned by
  successive `get_export_status_code` calls is abstracted as a function
  `Nat → String` (one element per service call, in call order).
* `describe_log_groups` pagination is modelled by the list of pages the
  service would serve: the first page plus the pages reachable through
  successive continuation tokens (a token is present exactly when more
  pages remain).
* `create_export_task` either succeeds or raises; which groups make it
  raise is a parameter (`submitFails`).  The textual `str(res)` rendering
  of its response dict used at line 61 of `exporter.py` is abstracted as
  `taskRepr : String → String`.
* Python exceptions escaping `get_logs` are modelled as `Except` errors:
  `.submissionError` for an exception out of `create_export_task`, and
  `.typeError` for `str.join` applied to a list containing `None`.
-/

namespace CloudwatchLogExporter

/-- `os.environ`, read through `os.environ.get(key, default)`. -/
def Env : Type := String → Option String

/-- `os.environ.get(key, dflt)`. -/
def envGet (env : Env) (key dflt : String) : String :=
  (env key).getD dflt

/-! ### get_export_status_code (exporter.py lines 28-30)

`c.describe_export_tasks(taskId=task_id)["exportTasks"][0]["status"]["code"]`:
each dictionary key that may be missing is an `Option` field, and the `[0]`
index demands a non-empty list.  A `none` result models the `KeyError` /
`IndexError` the Python raises on a malformed or empty response. -/

/-- The `"status"` sub-dictionary of one export-task entry. -/
structure StatusField where
  code : Option String
deriving DecidableEq

/-- One element of the `"exportTasks"` list. -/
structure ExportTaskEntry where
  status : Option StatusField
deriving DecidableEq

/-- A `describe_export_tasks` response; `exportTasks := none` models a
response without an `"exportTasks"` key. -/
structure DescribeExportTasksResponse where
  exportTasks : Option (List ExportTaskEntry)
deriving DecidableEq

/-- `get_export_status_code` (lines 28-30): successive key/index accesses,
`none` where Python raises. -/
def get_export_status_code (resp : DescribeExportTasksResponse) : Option String :=
  match resp.exportTasks with
  | none => none
  | some tasks =>
    match tasks with
    | [] => none
    | t :: _ =>
      match t.status with
      | none => none
      | some s => s.code

/-! ### The polling loop of maybe_export_log_group (lines 53-61)

```
attempts = 0
while get_export_status_code(...) != "COMPLETED":
    if attempts > retries: return None
    attempts += 1
    time.sleep(interval)
return f"{res} export status: {get_export_status_code(...)}\n"
```

`statuses i` is the code returned by the `(i+1)`-th `get_export_status_code`
call.  The loop counter `attempts` increases by one per iteration and the
loop aborts when `attempts > retries`, so `fuel := retries + 1 - attempts`
decreases by one per iteration and the abort test `attempts > retries` is
exactly `fuel = 0`; the recursion below is on `fuel`, starting from
`retries + 1` (where `attempts = 0`).  `checks` counts
`get_export_status_code` calls (including the final one inside the returned
f-string) and `sleeps` counts `time.sleep(interval)` calls. -/

/-- How the polling loop ended: the success return at line 61 (carrying the
status code interpolated into the returned string, which the source obtains
from one further `get_export_status_code` call), or the `return None` at
line 56. -/
inductive PollOutcome where
  | completed (finalStatus : String)
  | exhausted
deriving DecidableEq

/-- Result of the polling loop together with its service-call and sleep
counts. -/
structure PollResult where
  outcome : PollOutcome
  checks : Nat
  sleeps : Nat
deriving DecidableEq

/-- One iteration of the `while` loop at lines 54-59; `next` is the index of
the next status in the response sequence, `fuel = retries + 1 - attempts`. -/
def pollLoop (statuses : Nat → String) (fuel next checks sleeps : Nat) : PollResult :=
  if statuses next = "COMPLETED" then
    { outcome := .completed (statuses (next + 1)), checks := checks + 2, sleeps := sleeps }
  else
    match fuel with
    | 0 => { outcome := .exhausted, checks := checks + 1, sleeps := sleeps }
    | f + 1 => pollLoop statuses f (next + 1) (checks + 1) (sleeps + 1)

/-- The whole polling phase of `maybe_export_log_group` (lines 53-61),
entered with `attempts = 0`. -/
def poll (statuses : Nat → String) (retries : Nat) : PollResult :=
  pollLoop statuses (retries + 1) 0 0 0

/-! ### maybe_export_log_group (lines 41-61) -/

/-- The keyword arguments of the `create_export_task` call at lines 44-51. -/
structure ExportRequest where
  taskName : String
  logGroupName : String
  fromTime : Int
  toTime : Int
  destination : String
  destinationPrefix : String
deriving DecidableEq

/-- The request `maybe_export_log_group` submits at lines 44-51:
`destination` comes from the environment, `destinationPrefix` is the
f-string `f"cloudwatchlogs_{lgn}/{prefix_time}"`. -/
def mkExportRequest (env : Env) (start_time end_time : Int)
    (prefix_time lgn : String) : ExportRequest :=
  { taskName := lgn
    logGroupName := lgn
    fromTime := start_time
    toTime := end_time
    destination := envGet env "LOGS_BUCKET" "cloudwatch-logs-coldstorage"
    destinationPrefix := "cloudwatchlogs_" ++ lgn ++ "/" ++ prefix_time }

/-- An exception escaping `get_logs`: an unhandled error raised by
`create_export_task`, or the `TypeError` raised by `"\n".join` when the
joined list contains `None`. -/
inductive RunError where
  | submissionError
  | typeError
deriving DecidableEq

/-- `maybe_export_log_group` (lines 41-61).  The `.error` case is an
exception propagating out of `create_export_task`; on success the result
carries the submitted request (recording the call at lines 44-51) together
with the source's return value: `some` rendered line on the success return
at line 61, `none` for the `return None` at line 56. -/
def maybe_export_log_group (env : Env) (submitFails : String → Bool)
    (taskRepr : String → String) (statuses : String → Nat → String)
    (start_time end_time : Int) (prefix_time lgn : String) (retries : Nat) :
    Except Unit (ExportRequest × Option String) :=
  if submitFails lgn then
    .error ()
  else
    let req := mkExportRequest env start_time end_time prefix_time lgn
    match poll (statuses lgn) retries with
    | { outcome := .completed finalStatus, .. } =>
        .ok (req, some (taskRepr lgn ++ " export status: " ++ finalStatus ++ "\n"))
    | { outcome := .exhausted, .. } =>
        .ok (req, none)

/-! ### publish_to_sns (lines 20-25) -/

/-- The keyword arguments of the `c.publish` call. -/
structure SnsPublish where
  topicArn : String
  message : String
  subject : String
deriving DecidableEq

/-- `publish_to_sns` (lines 20-25); `get_logs` leaves `subject` at its
default `"CloudWatch Logs Export Results"`. -/
def publish_to_sns (env : Env) (message subject : String) : SnsPublish :=
  { topicArn := envGet env "LOGS_SNS_TOPIC" "arn:aws:sns:eu-west-1:973635090400:CWLogsUpload"
    message := message
    subject := subject }

/-! ### get_logs (lines 64-125) -/

/-- Python's `sep.join(l)` on an all-string list. -/
def joinSep (sep : String) : List String → String
  | [] => ""
  | x :: xs => xs.foldl (fun acc y => acc ++ sep ++ y) x

/-- `sep.join(items)` where `items` may contain `None` (as the list built at
lines 96-102 / 117-123 may): Python raises `TypeError` on any `None`
element. -/
def pyStrJoin (sep : String) (items : List (Option String)) : Except RunError String :=
  match items.mapM id with
  | none => .error .typeError
  | some strs => .ok (joinSep sep strs)

/-- The service-boundary parameters `get_logs` threads into
`maybe_export_log_group`, plus the renderings it interpolates into the
report.  `listRepr` stands for Python's `str` of a list of names (used in
`progress_message` at line 112) and `progressTime` for
`time.strftime(date_format)` there.  The source never passes `retries` /
`interval`, so every poll runs with the default `retries = 10`. -/
structure Params where
  submitFails : String → Bool
  taskRepr : String → String
  statuses : String → Nat → String
  startTime : Int
  endTime : Int
  prefixTime : String
  progressTime : String
  listRepr : List String → String

/-- The list comprehension + join at lines 96-102 (and, per page, at lines
117-123): submit-and-poll every name in `names`, propagate any
`create_export_task` exception, then `"\n".join` the results.  Returns the
requests issued and the joined text. -/
def exportBatch (env : Env) (P : Params) (names : List String) :
    Except RunError (List ExportRequest × String) :=
  match names.mapM (fun x =>
      maybe_export_log_group env P.submitFails P.taskRepr P.statuses
        P.startTime P.endTime P.prefixTime x 10) with
  | .error _ => .error .submissionError
  | .ok results =>
    match pyStrJoin "\n" (results.map Prod.snd) with
    | .error e => .error e
    | .ok joined => .ok (results.map Prod.fst, joined)

/-- What a completed run did: `describe_log_groups` call count, the
`create_export_task` requests issued in order, and the final `c.publish`
call. -/
structure RunSuccess where
  listingCalls : Nat
  requests : List ExportRequest
  publish : SnsPublish
deriving DecidableEq

/-- The `while last_token` loop at lines 106-123.  `remaining` is the list
of pages still reachable through continuation tokens (the loop guard
`last_token` is true exactly while pages remain); each iteration makes one
`describe_log_groups(nextToken=...)` call, appends
`"\n" + progress_message` followed (with no separator, line 117) by the
join over — as the source has it — `initial_log_group_group_names`, the
FIRST page's names. -/
def getLogsLoop (env : Env) (P : Params) (initialNames : List String) :
    List (List String) → Nat → List ExportRequest → String →
    Except RunError (Nat × List ExportRequest × String)
  | [], calls, reqs, report => .ok (calls, reqs, report)
  | page :: rest, calls, reqs, report =>
    match exportBatch env P initialNames with
    | .error e => .error e
    | .ok (newReqs, joined) =>
        getLogsLoop env P initialNames rest (calls + 1) (reqs ++ newReqs)
          (report ++ "\n" ++ (P.progressTime ++ ": " ++ P.listRepr page) ++ joined)

/-- `get_logs` (lines 64-125).  The service would serve `firstPage` to the
initial `describe_log_groups(limit=50)` call (line 88, counted as one
listing call) and `restPages` to the successive token-bearing calls.  An
`.error` result is an exception escaping `get_logs` before anything is
published. -/
def get_logs (env : Env) (P : Params) (firstPage : List String)
    (restPages : List (List String)) : Except RunError RunSuccess :=
  match exportBatch env P firstPage with
  | .error e => .error e
  | .ok (reqs0, report0) =>
    match getLogsLoop env P firstPage restPages 1 reqs0 report0 with
    | .error e => .error e
    | .ok (calls, reqs, report) =>
        .ok { listingCalls := calls
              requests := reqs
              publish := publish_to_sns env report "CloudWatch Logs Export Results" }

/-! ### Concrete scenarios used in the closed theorems -/

/-- A benign service: every submission succeeds and every task reports
`COMPLETED` from the first status check on. -/
def benignParams : Params :=
  { submitFails := fun _ => false
    taskRepr := fun lgn => lgn
    statuses := fun _ _ => "COMPLETED"
    startTime := 0
    endTime := 1
    prefixTime := "2026-01-01 00:00:00"
    progressTime := "T"
    listRepr := fun names => joinSep "," names }

/-- An empty environment: every `os.environ.get` falls back to its
default. -/
def emptyEnv : Env := fun _ => none

/-- An environment overriding only `LOGS_BUCKET`. -/
def envOtherBucket : Env :=
  fun k => if k = "LOGS_BUCKET" then some "other-bucket" else none

/-- An environment setting only a key the exporter never reads. -/
def envUnrelatedKey : Env :=
  fun k => if k = "SOME_UNRELATED_KEY" then some "x" else none

/-- The body of the `c.publish` call a run performed (empty when the run
aborted before publishing). -/
def publishedMessage (r : Except RunError RunSuccess) : String :=
  match r with
  | .ok s => s.publish.message
  | .error _ => ""

/-- The `create_export_task` requests a completed run issued (empty when
the run aborted). -/
def issuedRequests (r : Except RunError RunSuccess) : List ExportRequest :=
  match r with
  | .ok s => s.requests
  | .error _ => []

/-! ## Theorems -/

/-- **C7.** The destination prefix submitted for a group is a deterministic
function of the group name and the window's human-readable start time
alone: it is the same across any two environments (hence any two pipeline
invocations with an identical window), and equals
`"cloudwatchlogs_" ++ lgn ++ "/" ++ prefix_time`. -/
theorem destination_prefix_deterministic (env₁ env₂ : Env)
    (s₁ e₁ s₂ e₂ : Int) (prefix_time lgn : String) :
    (mkExportRequest env₁ s₁ e₁ prefix_time lgn).destinationPrefix
        = (mkExportRequest env₂ s₂ e₂ prefix_time lgn).destinationPrefix
      ∧ (mkExportRequest env₁ s₁ e₁ prefix_time lgn).destinationPrefix
        = "cloudwatchlogs_" ++ lgn ++ "/" ++ prefix_time :=
  ⟨rfl, rfl⟩

/-- **C10.** `get_export_status_code` is partial at the service boundary:
it returns a code exactly when the response carries an `"exportTasks"` list
whose first element has a `"status"` record with a `"code"`, in which case
the result is the first task's code; on a missing or empty task list the
error branch (a raised `KeyError`/`IndexError`, modelled `none`) is reached
instead. -/
theorem get_export_status_code_partiality (resp : DescribeExportTasksResponse) :
    (∀ c : String, get_export_status_code resp = some c ↔
        ∃ t ts s, resp.exportTasks = some (t :: ts)
          ∧ t.status = some s ∧ s.code = some c)
    ∧ ((resp.exportTasks = none ∨ resp.exportTasks = some []) →
        get_export_status_code resp = none) := by
  obtain ⟨tasks⟩ := resp
  constructor
  · intro c
    match tasks with
    | none => simp [get_export_status_code]
    | some [] => simp [get_export_status_code]
    | some (t :: ts) =>
      match h : t.status with
      | none => simp [get_export_status_code, h]
      | some s => simp [get_export_status_code, h]
  · rintro (h | h) <;> simp_all [get_export_status_code]

/-- Witness for C10: a well-formed singleton response yields its code, an
empty `exportTasks` list reaches the error branch. -/
theorem get_export_status_code_partiality_witness :
    get_export_status_code ⟨some [⟨some ⟨some "COMPLETED"⟩⟩]⟩ = some "COMPLETED"
      ∧ get_export_status_code ⟨some []⟩ = none :=
  ⟨((get_export_status_code_partiality ⟨some [⟨some ⟨some "COMPLETED"⟩⟩]⟩).1
        "COMPLETED").mpr ⟨_, _, _, rfl, rfl, rfl⟩,
    (get_export_status_code_partiality ⟨some []⟩).2 (Or.inr rfl)⟩

/-- If no status in the sequence is ever `COMPLETED`, the loop burns all its
fuel: one check per iteration, one sleep per iteration except the last, and
one more check on the final aborting iteration. -/
lemma pollLoop_never_completed (statuses : Nat → String)
    (h : ∀ i, statuses i ≠ "COMPLETED") :
    ∀ fuel next checks sleeps, pollLoop statuses fuel next checks sleeps
      = { outcome := .exhausted, checks := checks + fuel + 1, sleeps := sleeps + fuel } := by
  intro fuel
  induction fuel with
  | zero =>
    intro next checks sleeps
    simp [pollLoop, h next]
  | succ f ih =>
    intro next checks sleeps
    rw [pollLoop, if_neg (h next), ih]
    congr 1 <;> omega

/-- **C2 (amended).** On a status sequence that never reaches `COMPLETED`,
the polling phase returns the exhausted outcome — without raising — after
exactly `retries + 2` status checks and `retries + 1` sleeps (the loop body
runs once for each `attempts` value `0, …, retries + 1`, checking first and
sleeping in all but the aborting iteration). -/
theorem poll_never_completed_exhausts (statuses : Nat → String) (retries : Nat)
    (h : ∀ i, statuses i ≠ "COMPLETED") :
    poll statuses retries
      = { outcome := .exhausted, checks := retries + 2, sleeps := retries + 1 } := by
  rw [poll, pollLoop_never_completed statuses h]
  congr 1 <;> omega

/-- Witness for C2 (amended): with `retries = 3` and a constantly `PENDING`
task, polling exhausts after 5 checks and 4 sleeps. -/
theorem poll_never_completed_exhausts_witness :
    poll (fun _ => "PENDING") 3
      = { outcome := .exhausted, checks := 5, sleeps := 4 } :=
  poll_never_completed_exhausts (fun _ => "PENDING") 3
    (by intro i; show "PENDING" ≠ "COMPLETED"; decide)

/-- Counterexample to **C2 as stated**: with `retries = 0` and a task that
never completes, the loop makes 2 status checks and 1 sleep, not the claimed
`retries + 1 = 1` checks and `retries = 0` sleeps. -/
theorem poll_exhausted_count_cex :
    (poll (fun _ => "PENDING") 0).checks ≠ 0 + 1
      ∧ (poll (fun _ => "PENDING") 0).sleeps ≠ 0 := by
  decide

/-- If `statuses (next + j) = "COMPLETED"` for some `j ≤ fuel`, the loop
exits through the success return with at most `j` further sleeps. -/
lemma pollLoop_completed_le (statuses : Nat → String) :
    ∀ (j fuel next checks sleeps : Nat), j ≤ fuel →
      statuses (next + j) = "COMPLETED" →
      (∃ fs, (pollLoop statuses fuel next checks sleeps).outcome = .completed fs)
        ∧ (pollLoop statuses fuel next checks sleeps).sleeps ≤ sleeps + j := by
  intro j
  induction j with
  | zero =>
    intro fuel next checks sleeps _ hc
    rw [Nat.add_zero] at hc
    rw [pollLoop.eq_def, if_pos hc]
    exact ⟨⟨_, rfl⟩, Nat.le_refl _⟩
  | succ j ih =>
    intro fuel next checks sleeps hj hc
    by_cases h0 : statuses next = "COMPLETED"
    · rw [pollLoop.eq_def, if_pos h0]
      exact ⟨⟨_, rfl⟩, Nat.le_add_right _ _⟩
    · match fuel with
      | 0 => exact absurd hj (by omega)
      | f + 1 =>
        rw [pollLoop, if_neg h0]
        have hc' : statuses (next + 1 + j) = "COMPLETED" := by
          rw [Nat.add_right_comm]; exact hc
        obtain ⟨hdone, hsleep⟩ :=
          ih f (next + 1) (checks + 1) (sleeps + 1) (by omega) hc'
        exact ⟨hdone, by omega⟩

/-- **C6.** If the status sequence reaches `COMPLETED` on the `r`-th check
(`1 ≤ r ≤ retries`), the polling phase exits through the success return and
sleeps at most `r - 1` intervals. -/
theorem poll_completes_within_budget (statuses : Nat → String) (retries r : Nat)
    (hr1 : 1 ≤ r) (hr : r ≤ retries)
    (hc : statuses (r - 1) = "COMPLETED") :
    (∃ fs, (poll statuses retries).outcome = .completed fs)
      ∧ (poll statuses retries).sleeps ≤ r - 1 := by
  have := pollLoop_completed_le statuses (r - 1) (retries + 1) 0 0 0
    (by omega) (by simpa using hc)
  simpa [poll] using this

/-- Witness for C6: a task that is `COMPLETED` on the very first check
(`r = 1`, `retries = 10`) exits successfully with no sleeps. -/
theorem poll_completes_within_budget_witness :
    (∃ fs, (poll (fun _ => "COMPLETED") 10).outcome = .completed fs)
      ∧ (poll (fun _ => "COMPLETED") 10).sleeps ≤ 0 :=
  poll_completes_within_budget (fun _ => "COMPLETED") 10 1
    (by decide) (by decide) (by decide)

/-- **C1 (the code's actual behaviour at the failing input).** Listing
serves page 1 `["A"]` with a token and page 2 `["B"]` with none; every
submission succeeds and every task completes immediately.  The run submits
export requests for `["A", "A"]`: the second page re-exports the first
page's group and `"B"` is never exported, contradicting
"every group from every page exactly once, in discovery order". -/
theorem second_page_resubmits_first_page_groups :
    (get_logs emptyEnv benignParams ["A"] [["B"]]).map
        (fun r => r.requests.map ExportRequest.logGroupName)
      = .ok ["A", "A"] := by
  rfl

/-- **C3 (the code's actual behaviour at the failing input).** Group `"C"`
never reaches `COMPLETED`: `maybe_export_log_group` returns `None`, and
`"\n".join` over the resulting list raises `TypeError`, so the run aborts
before publishing — no "no result" marker line is ever rendered. -/
theorem exhausted_group_aborts_with_type_error :
    get_logs emptyEnv
        { benignParams with statuses := fun _ _ => "PENDING" }
        ["C"] []
      = .error .typeError := by
  rfl

/-- **C4 (the code's actual behaviour at the failing input).**
`create_export_task` raises for group `"B"` on a page `["A", "B"]`: the
exception propagates out of `get_logs`, aborting the whole run — no failed
outcome is recorded and nothing is published. -/
theorem submission_failure_aborts_run :
    get_logs emptyEnv
        { benignParams with submitFails := fun g => g == "B" }
        ["A", "B"] []
      = .error .submissionError := by
  rfl

/-- A benign submit-and-poll: the submission succeeds and the first status
check already reports `COMPLETED`, so the success line is returned with the
second check's code interpolated. -/
lemma maybe_export_log_group_completed (env : Env) (submitFails : String → Bool)
    (taskRepr : String → String) (statuses : String → Nat → String)
    (start_time end_time : Int) (prefix_time lgn : String) (retries : Nat)
    (hs : submitFails lgn = false) (hc : statuses lgn 0 = "COMPLETED") :
    maybe_export_log_group env submitFails taskRepr statuses start_time end_time
        prefix_time lgn retries
      = .ok (mkExportRequest env start_time end_time prefix_time lgn,
          some (taskRepr lgn ++ " export status: " ++ statuses lgn 1 ++ "\n")) := by
  rw [maybe_export_log_group, if_neg (by simp [hs]), poll, pollLoop.eq_def, if_pos hc]

/-- `mapM id` over a list of `some`s never hits the `TypeError` case. -/
lemma mapM_id_map_some {α : Type} (f : α → String) (l : List α) :
    (l.map (fun x => some (f x))).mapM id = some (l.map f) := by
  induction l with
  | nil => rfl
  | cons a t ih => rw [List.map_cons, List.mapM_cons, ih]; rfl

/-- A whole batch under a benign service: every request is issued and the
joined report is the newline-join of the per-group success lines. -/
lemma exportBatch_completed (env : Env) (P : Params) (names : List String)
    (hs : ∀ g, P.submitFails g = false) (hc : ∀ g, P.statuses g 0 = "COMPLETED") :
    exportBatch env P names
      = .ok (names.map (fun x => mkExportRequest env P.startTime P.endTime P.prefixTime x),
          joinSep "\n" (names.map (fun x =>
            P.taskRepr x ++ " export status: " ++ P.statuses x 1 ++ "\n"))) := by
  have hmap : names.mapM (fun x =>
      maybe_export_log_group env P.submitFails P.taskRepr P.statuses
        P.startTime P.endTime P.prefixTime x 10)
      = .ok (names.map (fun x =>
          (mkExportRequest env P.startTime P.endTime P.prefixTime x,
            some (P.taskRepr x ++ " export status: " ++ P.statuses x 1 ++ "\n")))) := by
    induction names with
    | nil => rfl
    | cons a t ih =>
      rw [List.mapM_cons,
        maybe_export_log_group_completed env P.submitFails P.taskRepr P.statuses
          P.startTime P.endTime P.prefixTime a 10 (hs a) (hc a), ih]
      rfl
  rw [exportBatch, hmap]
  simp only [List.map_map]
  rw [show ((fun p : ExportRequest × Option String => p.2) ∘ fun x =>
      (mkExportRequest env P.startTime P.endTime P.prefixTime x,
        some (P.taskRepr x ++ " export status: " ++ P.statuses x 1 ++ "\n")))
      = fun x => some (P.taskRepr x ++ " export status: " ++ P.statuses x 1 ++ "\n")
    from rfl]
  rw [pyStrJoin, mapM_id_map_some]
  rfl

/-- Under a benign service the pagination loop exhausts `remaining` making
one listing call per page. -/
lemma getLogsLoop_completed (env : Env) (P : Params) (names0 : List String)
    (hs : ∀ g, P.submitFails g = false) (hc : ∀ g, P.statuses g 0 = "COMPLETED") :
    ∀ (rest : List (List String)) (calls : Nat) (reqs : List ExportRequest)
      (report : String),
      ∃ reqs2 report2,
        getLogsLoop env P names0 rest calls reqs report
          = .ok (calls + rest.length, reqs2, report2) := by
  intro rest
  induction rest with
  | nil =>
    intro calls reqs report
    exact ⟨reqs, report, by simp [getLogsLoop]⟩
  | cons page rest ih =>
    intro calls reqs report
    obtain ⟨r2, rep2, h⟩ := ih (calls + 1)
      (reqs ++ names0.map (fun x => mkExportRequest env P.startTime P.endTime P.prefixTime x))
      (report ++ "\n" ++ (P.progressTime ++ ": " ++ P.listRepr page)
        ++ joinSep "\n" (names0.map (fun x =>
            P.taskRepr x ++ " export status: " ++ P.statuses x 1 ++ "\n")))
    have e : calls + 1 + rest.length = calls + (rest.length + 1) := by omega
    rw [e] at h
    refine ⟨r2, rep2, ?_⟩
    simp only [getLogsLoop, exportBatch_completed env P names0 hs hc, h, List.length_cons]

/-- **C5.** When every submission succeeds and every task completes (so no
exception cuts the run short), a listing of `k` pages — `firstPage` plus
`restPages`, the last page carrying no token — leads to exactly `k`
`describe_log_groups` calls, after which the loop stops and the run
publishes; termination of the pagination loop is witnessed by the run
evaluating to a result at all. -/
theorem pagination_makes_k_calls (env : Env) (P : Params)
    (firstPage : List String) (restPages : List (List String))
    (hs : ∀ g, P.submitFails g = false) (hc : ∀ g, P.statuses g 0 = "COMPLETED") :
    ∃ r, get_logs env P firstPage restPages = .ok r
      ∧ r.listingCalls = restPages.length + 1 := by
  obtain ⟨r2, rep2, h⟩ := getLogsLoop_completed env P firstPage hs hc restPages 1
    (firstPage.map (fun x => mkExportRequest env P.startTime P.endTime P.prefixTime x))
    (joinSep "\n" (firstPage.map (fun x =>
        P.taskRepr x ++ " export status: " ++ P.statuses x 1 ++ "\n")))
  refine ⟨{ listingCalls := 1 + restPages.length
            requests := r2
            publish := publish_to_sns env rep2 "CloudWatch Logs Export Results" },
    ?_, by show 1 + restPages.length = restPages.length + 1; omega⟩
  simp only [get_logs, exportBatch_completed env P firstPage hs hc, h]

/-- Witness for C5: three pages, three listing calls. -/
theorem pagination_makes_k_calls_witness :
    ∃ r, get_logs emptyEnv benignParams ["A"] [["B"], ["C"]] = .ok r
      ∧ r.listingCalls = 2 + 1 :=
  pagination_makes_k_calls emptyEnv benignParams ["A"] [["B"], ["C"]]
    (by intro g; rfl) (by intro g; rfl)

/-- Counterexample to **C8 as stated**: two groups on one page, both
completing on the first check.  The published body both contains a doubled
newline (between the two entries) and ends with a trailing newline, because
each success entry already carries its own terminating `"\n"`. -/
theorem render_separator_cex :
    ('\n' :: '\n' :: [])
        <:+: (publishedMessage (get_logs emptyEnv benignParams ["A", "B"] [])).data
      ∧ (publishedMessage (get_logs emptyEnv benignParams ["A", "B"] [])).data.getLast?
        = some '\n' := by
  decide

/-- The separator structure of `joinSep "\n"` applied to two entries that
each end in `"\n"`. -/
lemma joined_entries_separators (x y : String) :
    ('\n' :: '\n' :: []) <:+: (((x ++ "\n") ++ "\n") ++ (y ++ "\n")).data
      ∧ (((x ++ "\n") ++ "\n") ++ (y ++ "\n")).data.getLast? = some '\n' := by
  constructor
  · exact ⟨x.data, y.data ++ ['\n'], by simp⟩
  · have e : (((x ++ "\n") ++ "\n") ++ (y ++ "\n")).data
        = (x.data ++ '\n' :: '\n' :: y.data) ++ ['\n'] := by simp
    rw [e, List.getLast?_concat]

/-- **C8 (amended).** `get_logs` joins the per-group outcome entries with
single `"\n"` separators, but each success entry already terminates with
its own newline (line 61), so between two consecutive success entries the
body contains a doubled newline and after a final success entry a trailing
newline. -/
theorem render_separator_amended (env : Env) (P : Params) (g₁ g₂ : String)
    (hs₁ : P.submitFails g₁ = false) (hs₂ : P.submitFails g₂ = false)
    (hc₁ : P.statuses g₁ 0 = "COMPLETED") (hc₂ : P.statuses g₂ 0 = "COMPLETED") :
    ∃ r, get_logs env P [g₁, g₂] [] = .ok r
      ∧ ('\n' :: '\n' :: []) <:+: r.publish.message.data
      ∧ r.publish.message.data.getLast? = some '\n' := by
  have h₁ := maybe_export_log_group_completed env P.submitFails P.taskRepr P.statuses
    P.startTime P.endTime P.prefixTime g₁ 10 hs₁ hc₁
  have h₂ := maybe_export_log_group_completed env P.submitFails P.taskRepr P.statuses
    P.startTime P.endTime P.prefixTime g₂ 10 hs₂ hc₂
  have hrun : get_logs env P [g₁, g₂] []
      = .ok { listingCalls := 1
              requests := [mkExportRequest env P.startTime P.endTime P.prefixTime g₁,
                mkExportRequest env P.startTime P.endTime P.prefixTime g₂]
              publish := publish_to_sns env
                (((P.taskRepr g₁ ++ " export status: " ++ P.statuses g₁ 1 ++ "\n") ++ "\n")
                  ++ (P.taskRepr g₂ ++ " export status: " ++ P.statuses g₂ 1 ++ "\n"))
                "CloudWatch Logs Export Results" } := by
    rw [get_logs, exportBatch, List.mapM_cons, h₁, List.mapM_cons, h₂, List.mapM_nil]
    rfl
  refine ⟨_, hrun, ?_, ?_⟩
  · exact (joined_entries_separators
      (P.taskRepr g₁ ++ " export status: " ++ P.statuses g₁ 1)
      (P.taskRepr g₂ ++ " export status: " ++ P.statuses g₂ 1)).1
  · exact (joined_entries_separators
      (P.taskRepr g₁ ++ " export status: " ++ P.statuses g₁ 1)
      (P.taskRepr g₂ ++ " export status: " ++ P.statuses g₂ 1)).2

/-- Witness for C8 (amended) at a concrete benign run. -/
theorem render_separator_amended_witness :
    ∃ r, get_logs envUnrelatedKey benignParams ["A", "B"] [] = .ok r
      ∧ ('\n' :: '\n' :: []) <:+: r.publish.message.data
      ∧ r.publish.message.data.getLast? = some '\n' :=
  render_separator_amended envUnrelatedKey benignParams "A" "B" rfl rfl rfl rfl

/-- Counterexample to **C9 as stated**: two runs with identical explicit
parameters but environments differing on `LOGS_BUCKET` issue different
export requests (different `destination`), so the core does read ambient
configuration state. -/
theorem env_interference_cex :
    issuedRequests (get_logs emptyEnv benignParams ["A"] [])
      ≠ issuedRequests (get_logs envOtherBucket benignParams ["A"] []) := by
  decide

/-- `mapM` over `Except` only depends on the function's values. -/
lemma mapM_except_congr {α β ε : Type} (f g : α → Except ε β) (l : List α)
    (h : ∀ a, f a = g a) : l.mapM f = l.mapM g := by
  induction l with
  | nil => rfl
  | cons a t ih => rw [List.mapM_cons, List.mapM_cons, h a, ih]

/-- The submitted request reads the environment only through
`LOGS_BUCKET`. -/
lemma mkExportRequest_env_congr (env₁ env₂ : Env)
    (hb : env₁ "LOGS_BUCKET" = env₂ "LOGS_BUCKET")
    (s e : Int) (pt lgn : String) :
    mkExportRequest env₁ s e pt lgn = mkExportRequest env₂ s e pt lgn := by
  rw [mkExportRequest, mkExportRequest, envGet, envGet, hb]

/-- `maybe_export_log_group` reads the environment only through
`LOGS_BUCKET`. -/
lemma maybe_export_env_congr (env₁ env₂ : Env)
    (hb : env₁ "LOGS_BUCKET" = env₂ "LOGS_BUCKET")
    (submitFails : String → Bool) (taskRepr : String → String)
    (statuses : String → Nat → String) (s e : Int) (pt lgn : String) (retries : Nat) :
    maybe_export_log_group env₁ submitFails taskRepr statuses s e pt lgn retries
      = maybe_export_log_group env₂ submitFails taskRepr statuses s e pt lgn retries := by
  rw [maybe_export_log_group, maybe_export_log_group,
    mkExportRequest_env_congr env₁ env₂ hb]

/-- `exportBatch` reads the environment only through `LOGS_BUCKET`. -/
lemma exportBatch_env_congr (env₁ env₂ : Env)
    (hb : env₁ "LOGS_BUCKET" = env₂ "LOGS_BUCKET") (P : Params) (names : List String) :
    exportBatch env₁ P names = exportBatch env₂ P names := by
  rw [exportBatch, exportBatch,
    mapM_except_congr _ _ names (fun a =>
      maybe_export_env_congr env₁ env₂ hb P.submitFails P.taskRepr P.statuses
        P.startTime P.endTime P.prefixTime a 10)]

/-- The pagination loop reads the environment only through `LOGS_BUCKET`. -/
lemma getLogsLoop_env_congr (env₁ env₂ : Env)
    (hb : env₁ "LOGS_BUCKET" = env₂ "LOGS_BUCKET") (P : Params) (names0 : List String) :
    ∀ (rest : List (List String)) (calls : Nat) (reqs : List ExportRequest)
      (report : String),
      getLogsLoop env₁ P names0 rest calls reqs report
        = getLogsLoop env₂ P names0 rest calls reqs report := by
  intro rest
  induction rest with
  | nil => intro calls reqs report; rfl
  | cons page rest ih =>
    intro calls reqs report
    rw [getLogsLoop, getLogsLoop, exportBatch_env_congr env₁ env₂ hb P names0]
    cases exportBatch env₂ P names0 with
    | error e => rfl
    | ok v => exact ih _ _ _

/-- **C9 (amended).** The core reads ambient configuration through exactly
two keys: `LOGS_BUCKET` (export destination) and `LOGS_SNS_TOPIC` (publish
topic).  Two runs with identical explicit parameters whose environments
agree on those two keys behave identically — same export requests, same
publish call. -/
theorem env_noninterference (env₁ env₂ : Env) (P : Params)
    (firstPage : List String) (restPages : List (List String))
    (hb : env₁ "LOGS_BUCKET" = env₂ "LOGS_BUCKET")
    (ht : env₁ "LOGS_SNS_TOPIC" = env₂ "LOGS_SNS_TOPIC") :
    get_logs env₁ P firstPage restPages = get_logs env₂ P firstPage restPages := by
  rw [get_logs, get_logs, exportBatch_env_congr env₁ env₂ hb P firstPage]
  cases exportBatch env₂ P firstPage with
  | error e => rfl
  | ok v =>
    obtain ⟨reqs0, report0⟩ := v
    dsimp only
    rw [getLogsLoop_env_congr env₁ env₂ hb P firstPage]
    cases getLogsLoop env₂ P firstPage restPages 1 reqs0 report0 with
    | error e => rfl
    | ok w =>
      obtain ⟨calls, reqs, report⟩ := w
      dsimp only
      rw [show publish_to_sns env₁ report "CloudWatch Logs Export Results"
          = publish_to_sns env₂ report "CloudWatch Logs Export Results" from by
        rw [publish_to_sns, publish_to_sns, envGet, envGet, ht]]

/-- Witness for C9 (amended): an empty environment and one that sets only a
key the exporter never reads yield identical runs. -/
theorem env_noninterference_witness :
    get_logs emptyEnv benignParams ["A"] [["B"]]
      = get_logs envUnrelatedKey benignParams ["A"] [["B"]] :=
  env_noninterference emptyEnv envUnrelatedKey benignParams ["A"] [["B"]]
    (by decide) (by decide)

end CloudwatchLogExporter
